import Mathlib

/-!
# Verification of the jira-mcp credential/session core

Shallow embedding of `src/index.ts` of the `tezaswi7222/jira-mcp` repository:
the credential data model, the environment/keytar credential sources, the
`getAuthOrThrow` session accessor with its OAuth refresh-before-expiry logic,
the `setAuth`/persistence operation, base-URL normalization, the
`errorToResult` error mapper, the ADF (Atlassian Document Format) text
conversions, and the `_internal_jira_set_auth` / `jira_delete_issue` tool
handlers.

JavaScript truthiness on optional values is modelled explicitly (`truthy`,
`truthyNum`): an absent value and an empty string (resp. the number 0) are
both falsy, exactly as the source's `if (!x)` checks behave.

External collaborators (the WHATWG `URL` constructor, the keytar secret
vault, the axios HTTP client, `Date.now()`) are modelled at the boundary:
keytar availability/stored content, the token endpoint's response, the two
`Date.now()` readings and the outcome of the HTTP DELETE are inputs of a
`World` record; handlers record how many network requests they issued.
-/

/-- The characters removed by JavaScript `String.prototype.trim`
(whitespace and line terminators; the members exercised here). -/
def isJsWhitespace (c : Char) : Bool :=
  c == ' ' || c == '\t' || c == '\n' || c == '\r' ||
  c == Char.ofNat 11 || c == Char.ofNat 12 || c == Char.ofNat 160 ||
  c == Char.ofNat 0xfeff || c == Char.ofNat 0x2028 || c == Char.ofNat 0x2029

/-- Drop leading then trailing JS-whitespace from a character list. -/
def trimChars (l : List Char) : List Char :=
  ((l.dropWhile isJsWhitespace).reverse.dropWhile isJsWhitespace).reverse

/-- Models JavaScript `String.prototype.trim`. -/
def jsTrim (s : String) : String :=
  ⟨trimChars s.data⟩

/-- Models the regex replacement `.replace(/\/+$/, "")` used by
`normalizeBaseUrl` in the source: strip every trailing `/`. -/
def stripTrailingSlashes (s : String) : String :=
  ⟨(s.data.reverse.dropWhile (fun c => c == '/')).reverse⟩

/-- The `origin` and `pathname` of a parsed URL, the two properties the
source reads off the `URL` object. -/
structure UrlParts where
  origin : String
  pathname : String
deriving Repr, DecidableEq

/-- Splits a character list at the first occurrence of `://`, returning the
part before (the scheme) and the part after. -/
def splitSchemeSep : List Char → Option (List Char × List Char)
  | [] => none
  | ':' :: '/' :: '/' :: rest => some ([], rest)
  | c :: rest =>
    match splitSchemeSep rest with
    | some (sch, r) => some (c :: sch, r)
    | none => none

/-- Splits a character list at the first `/`: the host part and the path
part (the path keeps its leading slash; empty when there is no `/`). -/
def splitAtSlash : List Char → List Char × List Char
  | [] => ([], [])
  | '/' :: rest => ([], '/' :: rest)
  | c :: rest =>
    let (h, p) := splitAtSlash rest
    (c :: h, p)

/-- Models the WHATWG `URL` constructor (a platform builtin, not part of
this repository) on the fragment these claims exercise: an `http` or
`https` scheme followed by `://`, a nonempty host not containing `/`, and
an optional path; no userinfo, port, query or fragment handling. A string
with no `://` separator (such as a plain phrase) fails to parse, exactly as
the real constructor throws. `origin` is `scheme://host`; `pathname` is the
path with its leading slash, `/` when the input has none (the real
constructor normalizes an absent path to `/` for special schemes). -/
def parseUrlModel (s : String) : Option UrlParts :=
  match splitSchemeSep s.data with
  | none => none
  | some (sch, rest) =>
    if String.mk sch == "http" || String.mk sch == "https" then
      let (host, path) := splitAtSlash rest
      if host.isEmpty then none
      else
        some { origin := String.mk sch ++ "://" ++ String.mk host,
               pathname := if path.isEmpty then "/" else String.mk path }
    else none

/-- Embeds `normalizeBaseUrl` (src/index.ts lines 159-168): parse the input
as a URL — on failure throw the fixed validation message — then return the
origin concatenated with the pathname stripped of trailing slashes. The
function is pure: no HTTP request is involved on any path. -/
def normalizeBaseUrl (input : String) : Except String String :=
  match parseUrlModel input with
  | none => .error "baseUrl must be a valid URL like https://your-domain.atlassian.net"
  | some parsed => .ok (parsed.origin ++ stripTrailingSlashes parsed.pathname)

/-- Embeds the `AdfNode` shape of the source (src/index.ts lines 409-413):
an optional `type`, an optional `text`, an optional list of children.
(The `version` field produced by `textToAdf` is not part of `AdfNode` and
is never read by `adfToText`, so it is not modelled.) -/
inductive Adf where
  | node (ty : Option String) (tx : Option String) (ct : Option (List Adf))

mutual
/-- Embeds `adfToText` (src/index.ts lines 419-432) on a single node: a
node with a string `text` yields that text verbatim; a node with children
joins the non-empty child texts with `"\n"` when its type is `"paragraph"`
and `" "` otherwise, then trims; any other node yields `""`. The
`filter (fun t => !(t == ""))` mirrors the source's `.filter(Boolean)`
under JS string truthiness. -/
def adfToText : Adf → String
  | .node ty tx ct =>
    match tx with
    | some t => t
    | none =>
      match ct with
      | some children =>
        let parts := (adfTexts children).filter (fun t => !(t == ""))
        jsTrim (String.intercalate (if ty == some "paragraph" then "\n" else " ") parts)
      | none => ""

/-- Embeds the `children.map(adfToText)` call of the source, written as
mutual recursion. -/
def adfTexts : List Adf → List String
  | [] => []
  | a :: rest => adfToText a :: adfTexts rest
end

/-- Embeds the array overload of `adfToText` (the source function also
accepts `AdfNode[]`): map, drop empties, join with newlines, trim. -/
def adfToTextArr (l : List Adf) : String :=
  jsTrim (String.intercalate "\n" ((adfTexts l).filter (fun t => !(t == ""))))

/-- Embeds `textToAdf` (src/index.ts lines 445-461): a `doc` wrapping one
`paragraph` wrapping one `text` node carrying the input verbatim. -/
def textToAdf (text : String) : Adf :=
  .node (some "doc") none
    (some [ .node (some "paragraph") none
      (some [ .node (some "text") (some text) none ]) ])

/-- Embeds `BasicAuthConfig` (src/index.ts lines 117-122), minus the
constant `type: "basic"` tag, carried by the `AuthConfig` constructor. -/
structure BasicAuthConfig where
  baseUrl : String
  email : String
  apiToken : String
deriving Repr, DecidableEq

/-- Embeds `OAuthConfig` (src/index.ts lines 122-130), minus the constant
`type: "oauth"` tag. `refreshToken` and `expiresAt` are optional in the
source; `expiresAt` is a millisecond epoch timestamp. -/
structure OAuthConfig where
  clientId : String
  clientSecret : String
  accessToken : String
  refreshToken : Option String
  cloudId : String
  expiresAt : Option Int
deriving Repr, DecidableEq

/-- Embeds `AuthConfig = BasicAuthConfig | OAuthConfig`. -/
inductive AuthConfig where
  | basic (cfg : BasicAuthConfig)
  | oauth (cfg : OAuthConfig)
deriving Repr, DecidableEq

/-- JS truthiness of an optional string environment variable: absent and
empty are falsy, exactly as `if (!x)` behaves on `string | undefined`. -/
def truthy : Option String → Bool
  | none => false
  | some s => !(s == "")

/-- JS truthiness of an optional number: absent and `0` are falsy, exactly
as `inMemoryAuth.expiresAt` behaves in a boolean position. -/
def truthyNum : Option Int → Bool
  | none => false
  | some n => !(n == 0)

/-- The process environment variables the credential sources read. -/
structure Env where
  JIRA_BASE_URL : Option String
  JIRA_EMAIL : Option String
  JIRA_API_TOKEN : Option String
  JIRA_OAUTH_CLIENT_ID : Option String
  JIRA_OAUTH_CLIENT_SECRET : Option String
  JIRA_OAUTH_ACCESS_TOKEN : Option String
  JIRA_OAUTH_REFRESH_TOKEN : Option String
  JIRA_CLOUD_ID : Option String
deriving Repr, DecidableEq

/-- The environment with no variable set. -/
def Env.empty : Env :=
  ⟨none, none, none, none, none, none, none, none⟩

/-- What the keytar secret vault holds under the fixed
(`jira-mcp`, `default`) key: either a string that fails to parse as an
`AuthConfig` (`corrupt`, covering `JSON.parse` failures) or one that parses
to a credential. -/
inductive KeytarEntry where
  | corrupt
  | cred (a : AuthConfig)
deriving Repr, DecidableEq

/-- The response body of a successful `refreshAccessToken` token-endpoint
call (src/index.ts lines 244-263): `expires_in` is a lifetime in seconds;
`refresh_token` may be absent when the server issues no new one. -/
structure RefreshGrant where
  access_token : String
  refresh_token : Option String
  expires_in : Int
deriving Repr, DecidableEq

/-- An exception value as the handlers see it: either a plain `Error` with a
message, or an axios HTTP error with an optional response status and the
response detail text. -/
inductive ThrownError where
  | jsError (message : String)
  | httpError (status : Option Nat) (detail : String)
deriving Repr, DecidableEq

/-- The external world one tool invocation observes: the two `Date.now()`
readings (at the refresh check and after the refresh response), the token
endpoint's answer (`none` models a network/HTTP failure of the refresh
call), the environment, keytar availability and content, and the outcome of
the handler's own HTTP request (`none` = success). -/
structure World where
  now : Int
  nowAfterRefresh : Int
  refreshResult : Option RefreshGrant
  env : Env
  keytarAvailable : Bool
  keytarStored : Option KeytarEntry
  deleteResult : Option ThrownError
deriving Repr, DecidableEq

/-- Embeds `basicAuthFromEnv` (src/index.ts lines 172-186): `null` when any
of the three variables is absent or empty, otherwise a Basic credential
with the normalized base URL. `normalizeBaseUrl` throws on a malformed
URL, and `basicAuthFromEnv` does not catch it — hence the `Except`. -/
def basicAuthFromEnv (env : Env) : Except String (Option BasicAuthConfig) :=
  if truthy env.JIRA_BASE_URL && truthy env.JIRA_EMAIL && truthy env.JIRA_API_TOKEN then
    match normalizeBaseUrl (env.JIRA_BASE_URL.getD "") with
    | .error e => .error e
    | .ok u => .ok (some { baseUrl := u, email := env.JIRA_EMAIL.getD "",
                           apiToken := env.JIRA_API_TOKEN.getD "" })
  else .ok none

/-- Embeds `oauthFromEnv` (src/index.ts lines 190-209): `null` when any of
client ID, client secret, access token or cloud ID is absent or empty;
the refresh token is passed through as-is (possibly absent) and no expiry
is set. -/
def oauthFromEnv (env : Env) : Option OAuthConfig :=
  if truthy env.JIRA_OAUTH_CLIENT_ID && truthy env.JIRA_OAUTH_CLIENT_SECRET &&
     truthy env.JIRA_OAUTH_ACCESS_TOKEN && truthy env.JIRA_CLOUD_ID then
    some { clientId := env.JIRA_OAUTH_CLIENT_ID.getD "",
           clientSecret := env.JIRA_OAUTH_CLIENT_SECRET.getD "",
           accessToken := env.JIRA_OAUTH_ACCESS_TOKEN.getD "",
           refreshToken := env.JIRA_OAUTH_REFRESH_TOKEN,
           cloudId := env.JIRA_CLOUD_ID.getD "",
           expiresAt := none }
  else none

/-- Embeds `authFromKeytar` (src/index.ts lines 306-323): absent when the
keytar module is unavailable or no value is stored; a stored value that
fails to parse yields `null` (the `try/catch` swallows it), and so does a
stored Basic credential whose base URL fails normalization (the same
`try/catch` catches the `normalizeBaseUrl` throw); otherwise the stored
credential, with a Basic base URL re-normalized. -/
def authFromKeytar (w : World) : Option AuthConfig :=
  if !w.keytarAvailable then none
  else
    match w.keytarStored with
    | none => none
    | some .corrupt => none
    | some (.cred a) =>
      match a with
      | .basic b =>
        match normalizeBaseUrl b.baseUrl with
        | .ok u => some (.basic { b with baseUrl := u })
        | .error _ => none
      | .oauth o => some (.oauth o)

/-- The observable outcome of one `getAuthOrThrow` call: the returned
credential or thrown error message, the in-memory slot afterwards, and how
many refresh requests were issued to the token endpoint. -/
structure ResolveOutcome where
  result : Except String AuthConfig
  inMemoryAfter : Option AuthConfig
  refreshCalls : Nat
deriving Repr

/-- Embeds `getAuthOrThrow` (src/index.ts lines 327-368). If an in-memory
credential exists: when it is OAuth with a truthy `expiresAt` and a truthy
`refreshToken` and `Date.now() >= expiresAt - 5*60*1000`, one refresh is
attempted — on success the in-memory credential's access token, refresh
token (the old one kept when the response carries no truthy new one) and
expiry (`Date.now() + expires_in * 1000`) are replaced in place, on failure
the error is logged and swallowed — and the (possibly refreshed) in-memory
credential is returned. Otherwise the sources are tried in order:
`oauthFromEnv`, `basicAuthFromEnv` (whose `normalizeBaseUrl` throw
propagates uncaught), `authFromKeytar`; if none yields a credential the
call throws `Error("MISSING_AUTH")`. -/
def getAuthOrThrow (inMem : Option AuthConfig) (w : World) : ResolveOutcome :=
  match inMem with
  | some a =>
    match a with
    | .oauth o =>
      if truthyNum o.expiresAt && truthy o.refreshToken then
        if w.now ≥ o.expiresAt.getD 0 - 5 * 60 * 1000 then
          match w.refreshResult with
          | some tokens =>
            let updated : OAuthConfig :=
              { o with
                accessToken := tokens.access_token,
                refreshToken :=
                  if truthy tokens.refresh_token then tokens.refresh_token
                  else o.refreshToken,
                expiresAt := some (w.nowAfterRefresh + tokens.expires_in * 1000) }
            { result := .ok (.oauth updated),
              inMemoryAfter := some (.oauth updated), refreshCalls := 1 }
          | none =>
            { result := .ok (.oauth o),
              inMemoryAfter := some (.oauth o), refreshCalls := 1 }
        else
          { result := .ok (.oauth o),
            inMemoryAfter := some (.oauth o), refreshCalls := 0 }
      else
        { result := .ok (.oauth o),
          inMemoryAfter := some (.oauth o), refreshCalls := 0 }
    | .basic b =>
      { result := .ok (.basic b),
        inMemoryAfter := some (.basic b), refreshCalls := 0 }
  | none =>
    match oauthFromEnv w.env with
    | some o =>
      { result := .ok (.oauth o), inMemoryAfter := none, refreshCalls := 0 }
    | none =>
      match basicAuthFromEnv w.env with
      | .error e =>
        { result := .error e, inMemoryAfter := none, refreshCalls := 0 }
      | .ok (some b) =>
        { result := .ok (.basic b), inMemoryAfter := none, refreshCalls := 0 }
      | .ok none =>
        match authFromKeytar w with
        | some a =>
          { result := .ok a, inMemoryAfter := none, refreshCalls := 0 }
        | none =>
          { result := .error "MISSING_AUTH",
            inMemoryAfter := none, refreshCalls := 0 }

/-- The observable outcome of one `setAuth` call: the in-memory slot
afterwards, the returned/thrown result, and what (if anything) was written
to the durable vault. -/
structure SetAuthOutcome where
  inMemoryAfter : Option AuthConfig
  result : Except String Unit
  persisted : Option AuthConfig
deriving Repr

/-- Embeds `setAuth` (src/index.ts lines 370-378): the in-memory slot is
assigned first, unconditionally; without `persist` the call returns; with
`persist`, an unavailable keytar makes it throw
`Error("Keytar is not available to persist credentials.")`, otherwise the
credential is written to the vault. -/
def setAuth (auth : AuthConfig) (persist : Bool) (w : World) : SetAuthOutcome :=
  if !persist then
    { inMemoryAfter := some auth, result := .ok (), persisted := none }
  else if !w.keytarAvailable then
    { inMemoryAfter := some auth,
      result := .error "Keytar is not available to persist credentials.",
      persisted := none }
  else
    { inMemoryAfter := some auth, result := .ok (), persisted := some auth }

/-- The structured error object `errorToResult` produces (src/index.ts
lines 505-559): an `error` kind string and a `message`. `issueKey` models
the extra field the delete-issue confirmation refusal carries. -/
structure ErrorPayload where
  error : String
  message : String
  issueKey : Option String := none
deriving Repr, DecidableEq

/-- Embeds `errorToMessage` (src/index.ts lines 492-503) on the modelled
error shapes; `detail` stands for the stringified response data (or the
error's own message when the response carries none). -/
def errorToMessage : ThrownError → String
  | .jsError m => m
  | .httpError st detail =>
    "Jira API error" ++
      (match st with
       | some s => " (" ++ toString s ++ ")"
       | none => "") ++ ": " ++ detail

/-- Embeds `errorToResult` (src/index.ts lines 505-559). A plain `Error`
whose message is `MISSING_AUTH` maps to kind `"unauthorized"` with the
authenticate-guidance message; an HTTP error maps by status — 401
`"unauthorized"`, 403 `"forbidden"`, 404 `"not_found"`, 429
`"rate_limited"`, other truthy statuses ≥ 500 `"server_error"`, anything
else `"jira_error"`; any other plain `Error` maps to `"unknown"` with its
message. -/
def errorToResult : ThrownError → ErrorPayload
  | .jsError msg =>
    if msg == "MISSING_AUTH" then
      { error := "unauthorized",
        message := "Jira credentials are missing. Provide credentials explicitly to authenticate." }
    else
      { error := "unknown", message := msg }
  | .httpError status detail =>
    match status with
    | some 401 =>
      { error := "unauthorized",
        message := "Jira credentials are missing or invalid. If using OAuth, the token may have expired." }
    | some 403 =>
      { error := "forbidden",
        message := "You do not have permission to access this Jira resource." }
    | some 404 =>
      { error := "not_found",
        message := "The Jira resource does not exist or is not visible." }
    | some 429 =>
      { error := "rate_limited",
        message := "Jira rate limit exceeded. Please retry later." }
    | some s =>
      if s ≥ 500 then
        { error := "server_error", message := "Jira server error. Please retry later." }
      else
        { error := "jira_error", message := errorToMessage (.httpError (some s) detail) }
    | none =>
      { error := "jira_error", message := errorToMessage (.httpError none detail) }

/-- How one tool invocation ends: a success text, a structured error
payload returned as the tool result, an exception escaping the handler, or
a rejection by the declared input schema before the handler runs. -/
inductive Disposition where
  | success (text : String)
  | payload (p : ErrorPayload)
  | thrown (message : String)
  | invalidInput
deriving Repr, DecidableEq

/-- Returns `true` exactly when the invocation ended with an exception
escaping the handler. -/
def Disposition.isThrown : Disposition → Bool
  | .thrown _ => true
  | _ => false

/-- The observable outcome of one `_internal_jira_set_auth` invocation. -/
structure SetAuthCallOutcome where
  disposition : Disposition
  inMemoryAfter : Option AuthConfig
  persisted : Option AuthConfig
deriving Repr, DecidableEq

/-- Embeds the `_internal_jira_set_auth` tool handler (src/index.ts lines
795-813). Its body has no `try/catch`: the `normalizeBaseUrl` throw on a
malformed base URL and the `setAuth` throw when persistence is requested
while keytar is unavailable both escape the handler. (`persist` defaults to
`false` via the declared schema.) -/
def internal_jira_set_auth (inMem : Option AuthConfig)
    (baseUrl email apiToken : String) (persist : Bool) (w : World) :
    SetAuthCallOutcome :=
  match normalizeBaseUrl baseUrl with
  | .error e =>
    { disposition := .thrown e, inMemoryAfter := inMem, persisted := none }
  | .ok normalized =>
    let out := setAuth (.basic { baseUrl := normalized, email := email,
                                 apiToken := apiToken }) persist w
    match out.result with
    | .error e =>
      { disposition := .thrown e, inMemoryAfter := out.inMemoryAfter,
        persisted := out.persisted }
    | .ok _ =>
      { disposition := .success "Jira credentials loaded (Basic Auth).",
        inMemoryAfter := out.inMemoryAfter, persisted := out.persisted }

/-- The observable outcome of one `jira_delete_issue` invocation:
`netCalls` counts the HTTP requests issued (token refresh plus the DELETE),
`deleted` records whether the DELETE request was sent to Jira. -/
structure DeleteCallOutcome where
  disposition : Disposition
  netCalls : Nat
  deleted : Bool
  inMemoryAfter : Option AuthConfig
deriving Repr, DecidableEq

/-- Embeds the `jira_delete_issue` tool handler body (src/index.ts lines
1755-1797). The whole body is wrapped in `try/catch`: a falsy
`confirmDelete` returns the `confirmation_required` payload (carrying the
issue key) before any network activity; otherwise `getAuthOrThrow` runs
(throwing errors are caught and mapped by `errorToResult`), then the DELETE
is issued and its failure likewise mapped by `errorToResult`. -/
def jira_delete_issue_handler (inMem : Option AuthConfig)
    (issueIdOrKey : String) (deleteSubtasks : Option Bool)
    (confirmDelete : Bool) (w : World) : DeleteCallOutcome :=
  if !confirmDelete then
    { disposition := .payload
        { error := "confirmation_required",
          message := "Deletion not confirmed. Set confirmDelete: true to proceed. This action cannot be undone.",
          issueKey := some issueIdOrKey },
      netCalls := 0, deleted := false, inMemoryAfter := inMem }
  else
    let r := getAuthOrThrow inMem w
    match r.result with
    | .error e =>
      { disposition := .payload (errorToResult (.jsError e)),
        netCalls := r.refreshCalls, deleted := false,
        inMemoryAfter := r.inMemoryAfter }
    | .ok _ =>
      match w.deleteResult with
      | some err =>
        { disposition := .payload (errorToResult err),
          netCalls := r.refreshCalls + 1, deleted := false,
          inMemoryAfter := r.inMemoryAfter }
      | none =>
        { disposition := .success
            ("Issue " ++ issueIdOrKey ++ " deleted successfully" ++
              (if deleteSubtasks.getD false then " (including subtasks)" else "")),
          netCalls := r.refreshCalls + 1, deleted := true,
          inMemoryAfter := r.inMemoryAfter }

/-- Models the tool boundary for `jira_delete_issue`: the declared input
schema (src/index.ts lines 1761-1766) makes `confirmDelete` a required
boolean, so the protocol layer validates the arguments against it before
the handler runs and rejects a call that omits the flag without invoking
the handler (the spec treats the validation machinery as "validate against
declared constraints, reject otherwise"). -/
def jira_delete_issue_tool (inMem : Option AuthConfig)
    (issueIdOrKey : String) (deleteSubtasks : Option Bool)
    (confirmDelete : Option Bool) (w : World) : DeleteCallOutcome :=
  match confirmDelete with
  | none =>
    { disposition := .invalidInput, netCalls := 0, deleted := false,
      inMemoryAfter := inMem }
  | some c => jira_delete_issue_handler inMem issueIdOrKey deleteSubtasks c w

/-- A world with no environment variables, no keytar, a failing token
endpoint, both clocks at 0, and a succeeding DELETE. -/
def worldEmpty : World :=
  { now := 0, nowAfterRefresh := 0, refreshResult := none, env := Env.empty,
    keytarAvailable := false, keytarStored := none, deleteResult := none }

/-- An environment carrying a full OAuth credential. -/
def envOauth : Env :=
  { Env.empty with JIRA_OAUTH_CLIENT_ID := some "cid",
                   JIRA_OAUTH_CLIENT_SECRET := some "csec",
                   JIRA_OAUTH_ACCESS_TOKEN := some "atk",
                   JIRA_CLOUD_ID := some "cld" }

/-- An environment carrying a full Basic credential with a valid base URL. -/
def envBasic : Env :=
  { Env.empty with JIRA_BASE_URL := some "https://acme.atlassian.net",
                   JIRA_EMAIL := some "a@acme.com",
                   JIRA_API_TOKEN := some "T" }

/-- An environment whose three Basic variables are all set but whose base
URL is not a parseable URL. -/
def envBadBasic : Env :=
  { Env.empty with JIRA_BASE_URL := some "not a url",
                   JIRA_EMAIL := some "a@acme.com",
                   JIRA_API_TOKEN := some "T" }

/-- The OAuth credential `oauthFromEnv` derives from `envOauth`. -/
def oauthEnvCred : OAuthConfig :=
  { clientId := "cid", clientSecret := "csec", accessToken := "atk",
    refreshToken := none, cloudId := "cld", expiresAt := none }

/-- The Basic credential `basicAuthFromEnv` derives from `envBasic`. -/
def basicEnvCred : BasicAuthConfig :=
  { baseUrl := "https://acme.atlassian.net", email := "a@acme.com", apiToken := "T" }

/-- An OAuth credential stored in the keytar vault. -/
def storedOauthCred : OAuthConfig :=
  { clientId := "kc", clientSecret := "ks", accessToken := "ka",
    refreshToken := none, cloudId := "kd", expiresAt := none }

/-- An in-memory OAuth credential with a refresh token and an expiry at
millisecond 1000000. -/
def oauthNearExpiry : OAuthConfig :=
  { clientId := "c", clientSecret := "s", accessToken := "a",
    refreshToken := some "r", cloudId := "d", expiresAt := some 1000000 }

/-- The same credential with its expiry at exactly 0 (the epoch) — a falsy
number in JavaScript. -/
def oauthEpochExpiry : OAuthConfig :=
  { oauthNearExpiry with expiresAt := some 0 }

/-- A successful token-endpoint response: new access token, a new refresh
token, one hour of lifetime. -/
def grantSample : RefreshGrant :=
  { access_token := "a2", refresh_token := some "r2", expires_in := 3600 }

/-- The world `worldEmpty` with the OAuth environment credential. -/
def worldOauthEnv : World := { worldEmpty with env := envOauth }

/-- The world `worldEmpty` with the Basic environment credential. -/
def worldBasicEnv : World := { worldEmpty with env := envBasic }

/-- The world `worldEmpty` with the malformed Basic environment credential. -/
def worldBadBasicEnv : World := { worldEmpty with env := envBadBasic }

/-- The world `worldEmpty` with keytar available and holding
`storedOauthCred`. -/
def worldKeytar : World :=
  { worldEmpty with keytarAvailable := true,
                    keytarStored := some (.cred (.oauth storedOauthCred)) }

/-- A world whose clock is within the 5-minute window of
`oauthNearExpiry`'s expiry and whose token endpoint answers
`grantSample`. -/
def worldDue : World :=
  { worldEmpty with now := 999999, nowAfterRefresh := 1000100,
                    refreshResult := some grantSample }

/-- The same clock, but the token endpoint call fails. -/
def worldDueFail : World := { worldEmpty with now := 999999 }

/-- A world whose clock is far past every expiry used here. -/
def worldLate : World := { worldEmpty with now := 99999999 }

section TrimLemmas

variable {α : Type} (p : α → Bool)

/-- The head of `dropWhile p l`, when present, does not satisfy `p`. -/
theorem dropWhile_head_false :
    ∀ (l : List α) (c : α), (l.dropWhile p).head? = some c → p c = false := by
  intro l
  induction l with
  | nil => intro c h; simp [List.dropWhile] at h
  | cons a t ih =>
    intro c h
    by_cases hpa : p a = true
    · rw [List.dropWhile_cons_of_pos hpa] at h
      exact ih c h
    · rw [List.dropWhile_cons_of_neg hpa] at h
      simp only [List.head?_cons, Option.some.injEq] at h
      subst h
      exact Bool.eq_false_iff.mpr hpa

/-- A list whose head (when present) does not satisfy `p` is unchanged by
`dropWhile p`. -/
theorem dropWhile_of_head_false (l : List α)
    (h : ∀ c, l.head? = some c → p c = false) : l.dropWhile p = l := by
  cases l with
  | nil => rfl
  | cons a t =>
    have ha : p a = false := h a rfl
    exact List.dropWhile_cons_of_neg (by simp [ha])

/-- The function `List.dropWhile` is idempotent. -/
theorem dropWhile_dropWhile (l : List α) :
    (l.dropWhile p).dropWhile p = l.dropWhile p :=
  dropWhile_of_head_false p _ (dropWhile_head_false p l)

/-- Since `dropWhile` only removes a leading segment, a nonempty result keeps
the last element. -/
theorem getLast?_dropWhile :
    ∀ l : List α, l.dropWhile p ≠ [] → (l.dropWhile p).getLast? = l.getLast? := by
  intro l
  induction l with
  | nil => intro h; simp [List.dropWhile] at h
  | cons a t ih =>
    intro hne
    by_cases hpa : p a = true
    · rw [List.dropWhile_cons_of_pos hpa] at hne ⊢
      have ht : t ≠ [] := by
        intro h
        subst h
        simp [List.dropWhile] at hne
      rw [ih hne]
      cases t with
      | nil => exact absurd rfl ht
      | cons b u => rw [List.getLast?_cons_cons]
    · rw [List.dropWhile_cons_of_neg hpa]

/-- The function `trimChars` is idempotent. -/
theorem trimChars_trimChars (l : List Char) :
    trimChars (trimChars l) = trimChars l := by
  set q := isJsWhitespace with hq
  set d1 := l.dropWhile q with hd1
  set u := d1.reverse.dropWhile q with hu
  have hu_head : ∀ c, u.head? = some c → q c = false := by
    intro c hc
    exact dropWhile_head_false q d1.reverse c hc
  have hu_last : ∀ c, u.getLast? = some c → q c = false := by
    intro c hc
    by_cases hne : u = []
    · rw [hne] at hc; simp at hc
    · have h1 : u.getLast? = d1.reverse.getLast? := getLast?_dropWhile q d1.reverse hne
      rw [h1, List.getLast?_reverse] at hc
      exact dropWhile_head_false q l c hc
  have step1 : u.reverse.dropWhile q = u.reverse := by
    apply dropWhile_of_head_false
    intro c hc
    rw [List.head?_reverse] at hc
    exact hu_last c hc
  have step2 : u.dropWhile q = u :=
    dropWhile_of_head_false q u hu_head
  show ((((u.reverse).dropWhile q).reverse).dropWhile q).reverse = u.reverse
  rw [step1, List.reverse_reverse, step2]

/-- The function `jsTrim` is idempotent, as JavaScript `trim` is. -/
theorem jsTrim_jsTrim (s : String) : jsTrim (jsTrim s) = jsTrim s := by
  show (⟨trimChars (⟨trimChars s.data⟩ : String).data⟩ : String) = ⟨trimChars s.data⟩
  rw [show (⟨trimChars s.data⟩ : String).data = trimChars s.data from rfl,
      trimChars_trimChars]

end TrimLemmas

/-- Helper: the only error `normalizeBaseUrl` ever produces is the fixed
URL-validation message. -/
theorem normalizeBaseUrl_error_msg (s m : String)
    (h : normalizeBaseUrl s = .error m) :
    m = "baseUrl must be a valid URL like https://your-domain.atlassian.net" := by
  unfold normalizeBaseUrl at h
  cases hp : parseUrlModel s with
  | none => rw [hp] at h; exact (Except.error.inj h).symm
  | some u => rw [hp] at h; exact nomatch h

/-- Helper: the only error `basicAuthFromEnv` ever produces is the
URL-validation message coming from `normalizeBaseUrl`. -/
theorem basicAuthFromEnv_error_msg (env : Env) (m : String)
    (h : basicAuthFromEnv env = .error m) :
    m = "baseUrl must be a valid URL like https://your-domain.atlassian.net" := by
  unfold basicAuthFromEnv at h
  split at h
  · cases hn : normalizeBaseUrl (env.JIRA_BASE_URL.getD "") with
    | error e => rw [hn] at h
                 exact (Except.error.inj h) ▸ normalizeBaseUrl_error_msg _ _ hn
    | ok u => rw [hn] at h; exact nomatch h
  · exact nomatch h

/-- C8: `"https://x.atlassian.net/"` and `"https://x.atlassian.net"`
normalize to the identical base URL `"https://x.atlassian.net"` (trailing
slashes on the path stripped, scheme and host preserved), and every input
the URL parser rejects makes `normalizeBaseUrl` fail with the fixed
validation message — a pure, non-network error, before any HTTP call. -/
theorem c8_base_url_normalization (s : String) (h : parseUrlModel s = none) :
    normalizeBaseUrl "https://x.atlassian.net/" = .ok "https://x.atlassian.net" ∧
    normalizeBaseUrl "https://x.atlassian.net" = .ok "https://x.atlassian.net" ∧
    normalizeBaseUrl s =
      .error "baseUrl must be a valid URL like https://your-domain.atlassian.net" := by
  refine ⟨rfl, rfl, ?_⟩
  unfold normalizeBaseUrl
  rw [h]

/-- C8 witness: `"not a url"` is rejected by the parser and
`normalizeBaseUrl` fails on it with the validation message. -/
theorem c8_base_url_normalization_witness :
    parseUrlModel "not a url" = none ∧
    normalizeBaseUrl "not a url" =
      .error "baseUrl must be a valid URL like https://your-domain.atlassian.net" :=
  ⟨rfl, (c8_base_url_normalization "not a url" rfl).2.2⟩

/-- C10: converting plain text to ADF and back is exactly JavaScript
`trim`: `adfToText (textToAdf s) = jsTrim s`. In particular the round trip
is the identity precisely on strings without leading or trailing
whitespace, and interior characters (including newlines) are preserved. -/
theorem c10_adf_round_trip (s : String) : adfToText (textToAdf s) = jsTrim s := by
  have hpara :
      adfToText (Adf.node (some "paragraph") none
        (some [Adf.node (some "text") (some s) none])) = jsTrim s := by
    show jsTrim (String.intercalate "\n"
      (List.filter (fun t => !(t == "")) [s])) = jsTrim s
    by_cases hs : s = ""
    · subst hs; rfl
    · have hsb : (s == "") = false := beq_eq_false_iff_ne.mpr hs
      rw [show List.filter (fun t => !(t == "")) [s] = [s] by
        simp [List.filter, hsb]]
      rfl
  have hdoc :
      adfToText (textToAdf s) =
        jsTrim (String.intercalate " " (List.filter (fun t => !(t == ""))
          [adfToText (Adf.node (some "paragraph") none
            (some [Adf.node (some "text") (some s) none]))])) := rfl
  rw [hdoc, hpara]
  by_cases ht : jsTrim s = ""
  · rw [ht]; rfl
  · have htb : (jsTrim s == "") = false := beq_eq_false_iff_ne.mpr ht
    rw [show List.filter (fun t => !(t == "")) [jsTrim s] = [jsTrim s] by
      simp [List.filter, htb]]
    exact jsTrim_jsTrim s

/-- C9 (amended): calling `jira_delete_issue` with `confirmDelete: false`
returns the `confirmation_required` payload and performs zero network
calls; omitting `confirmDelete` is rejected by the declared input schema —
a validation rejection, not a `confirmation_required` payload — likewise
with zero network calls; in both cases no DELETE reaches Jira, so the
deletion request is unreachable unless the flag is `true`. -/
theorem c9_confirmation_gating (inMem : Option AuthConfig) (key : String)
    (ds : Option Bool) (w : World) :
    jira_delete_issue_tool inMem key ds (some false) w =
      { disposition := .payload
          { error := "confirmation_required",
            message := "Deletion not confirmed. Set confirmDelete: true to proceed. This action cannot be undone.",
            issueKey := some key },
        netCalls := 0, deleted := false, inMemoryAfter := inMem } ∧
    jira_delete_issue_tool inMem key ds none w =
      { disposition := .invalidInput, netCalls := 0, deleted := false,
        inMemoryAfter := inMem } :=
  ⟨rfl, rfl⟩

/-- C9 counterexample: with the confirmation flag omitted, the call is
rejected by input validation (`invalidInput`) — not answered with the
`confirmation_required` payload the claim states — though still with zero
network calls. -/
theorem c9_confirmation_gating_counterexample :
    jira_delete_issue_tool none "PROJ-1" none none worldEmpty =
      { disposition := .invalidInput, netCalls := 0, deleted := false,
        inMemoryAfter := none } :=
  rfl

/-- Helper: under a nonzero expiry and nonempty refresh token, the
source's truthiness guard on the refresh path is satisfied. -/
theorem oauth_refresh_guard (o : OAuthConfig) (e : Int) (rt : String)
    (he : o.expiresAt = some e) (he0 : e ≠ 0)
    (hrt : o.refreshToken = some rt) (hrt0 : rt ≠ "") :
    (truthyNum o.expiresAt && truthy o.refreshToken) = true := by
  have h1 : (e == 0) = false := beq_eq_false_iff_ne.mpr he0
  have h2 : (rt == "") = false := beq_eq_false_iff_ne.mpr hrt0
  rw [he, hrt]
  simp [truthyNum, truthy, h1, h2]

/-- C2 (amended): for an in-memory OAuth credential with a nonzero expiry
instant and a nonempty refresh token, `resolve()` performs no refresh
attempt when the expiry is more than 5 minutes after the current time, and
exactly one refresh attempt when the expiry is 5 minutes or less away
(including already past). -/
theorem c2_refresh_window (o : OAuthConfig) (w : World) (e : Int) (rt : String)
    (he : o.expiresAt = some e) (he0 : e ≠ 0)
    (hrt : o.refreshToken = some rt) (hrt0 : rt ≠ "") :
    (e > w.now + 5 * 60 * 1000 →
      (getAuthOrThrow (some (.oauth o)) w).refreshCalls = 0) ∧
    (e ≤ w.now + 5 * 60 * 1000 →
      (getAuthOrThrow (some (.oauth o)) w).refreshCalls = 1) := by
  have hg := oauth_refresh_guard o e rt he he0 hrt hrt0
  constructor
  · intro hfresh
    have hlt : ¬ (o.expiresAt.getD 0 ≤ w.now + 300000) := by
      rw [he]
      simp only [Option.getD_some]
      omega
    simp [getAuthOrThrow, hg, hlt]
  · intro hdue
    have hge : o.expiresAt.getD 0 ≤ w.now + 300000 := by
      rw [he]
      simp only [Option.getD_some]
      omega
    cases hr : w.refreshResult with
    | none => simp [getAuthOrThrow, hg, hge, hr]
    | some t => simp [getAuthOrThrow, hg, hge, hr]

/-- C2 witness: `oauthNearExpiry` (expiry at 1000000) is not refreshed at
time 0 (more than 5 minutes early) and is refreshed exactly once at time
999999 (within the window). -/
theorem c2_refresh_window_witness :
    (getAuthOrThrow (some (.oauth oauthNearExpiry)) worldEmpty).refreshCalls = 0 ∧
    (getAuthOrThrow (some (.oauth oauthNearExpiry)) worldDueFail).refreshCalls = 1 :=
  ⟨(c2_refresh_window oauthNearExpiry worldEmpty 1000000 "r" rfl (by decide)
      rfl (by decide)).1 (by decide),
   (c2_refresh_window oauthNearExpiry worldDueFail 1000000 "r" rfl (by decide)
      rfl (by decide)).2 (by decide)⟩

/-- C2 counterexample: `oauthEpochExpiry` has an expiry instant (0) and a
refresh token ("r"), and at time 99999999 the expiry is decades past — yet
`resolve()` performs zero refresh attempts, because the source's
`inMemoryAuth.expiresAt` truthiness check treats the number 0 as absent. -/
theorem c2_refresh_window_counterexample :
    oauthEpochExpiry.expiresAt = some 0 ∧
    oauthEpochExpiry.refreshToken = some "r" ∧
    ((0 : Int) ≤ worldLate.now + 5 * 60 * 1000) ∧
    (getAuthOrThrow (some (.oauth oauthEpochExpiry)) worldLate).refreshCalls = 0 :=
  ⟨rfl, rfl, by decide, rfl⟩

/-- C3: when the in-memory OAuth credential is due for refresh (truthy
expiry within 5 minutes, truthy refresh token) and the refresh attempt
fails, `resolve()` swallows the failure and returns the prior credential
unchanged — one refresh attempt, no call-level error, in-memory slot
untouched. -/
theorem c3_refresh_failure_tolerated (o : OAuthConfig) (w : World)
    (e : Int) (rt : String)
    (he : o.expiresAt = some e) (he0 : e ≠ 0)
    (hrt : o.refreshToken = some rt) (hrt0 : rt ≠ "")
    (hdue : e ≤ w.now + 5 * 60 * 1000) (hfail : w.refreshResult = none) :
    getAuthOrThrow (some (.oauth o)) w =
      { result := .ok (.oauth o), inMemoryAfter := some (.oauth o),
        refreshCalls := 1 } := by
  have hg := oauth_refresh_guard o e rt he he0 hrt hrt0
  have hge : o.expiresAt.getD 0 ≤ w.now + 300000 := by
    rw [he]
    simp only [Option.getD_some]
    omega
  simp [getAuthOrThrow, hg, hge, hfail]

/-- C3 witness: at time 999999 with a failing token endpoint,
`oauthNearExpiry` is returned unchanged. -/
theorem c3_refresh_failure_tolerated_witness :
    getAuthOrThrow (some (.oauth oauthNearExpiry)) worldDueFail =
      { result := .ok (.oauth oauthNearExpiry),
        inMemoryAfter := some (.oauth oauthNearExpiry), refreshCalls := 1 } :=
  c3_refresh_failure_tolerated oauthNearExpiry worldDueFail 1000000 "r"
    rfl (by decide) rfl (by decide) (by decide) rfl

/-- C7: on a successful refresh, the in-memory credential's access token
becomes the returned one, its expiry becomes the post-refresh clock reading
plus the returned lifetime (seconds, stored as milliseconds), its refresh
token is replaced only when the server issued a truthy new one (kept
otherwise), and the client ID, client secret and cloud ID are unchanged. -/
theorem c7_refresh_frame (o : OAuthConfig) (w : World) (e : Int) (rt : String)
    (t : RefreshGrant)
    (he : o.expiresAt = some e) (he0 : e ≠ 0)
    (hrt : o.refreshToken = some rt) (hrt0 : rt ≠ "")
    (hdue : e ≤ w.now + 5 * 60 * 1000) (hok : w.refreshResult = some t) :
    ∃ o2 : OAuthConfig,
      getAuthOrThrow (some (.oauth o)) w =
        { result := .ok (.oauth o2), inMemoryAfter := some (.oauth o2),
          refreshCalls := 1 } ∧
      o2.clientId = o.clientId ∧
      o2.clientSecret = o.clientSecret ∧
      o2.cloudId = o.cloudId ∧
      o2.accessToken = t.access_token ∧
      o2.expiresAt = some (w.nowAfterRefresh + t.expires_in * 1000) ∧
      (∀ nrt, t.refresh_token = some nrt → nrt ≠ "" →
        o2.refreshToken = some nrt) ∧
      (t.refresh_token = none → o2.refreshToken = o.refreshToken) ∧
      (t.refresh_token = some "" → o2.refreshToken = o.refreshToken) := by
  have hg := oauth_refresh_guard o e rt he he0 hrt hrt0
  have hge : o.expiresAt.getD 0 ≤ w.now + 300000 := by
    rw [he]
    simp only [Option.getD_some]
    omega
  refine ⟨{ o with
      accessToken := t.access_token,
      refreshToken :=
        if truthy t.refresh_token then t.refresh_token else o.refreshToken,
      expiresAt := some (w.nowAfterRefresh + t.expires_in * 1000) },
    ?_, rfl, rfl, rfl, rfl, rfl, ?_, ?_, ?_⟩
  · simp [getAuthOrThrow, hg, hge, hok]
  · intro nrt hn hn0
    rw [hn]
    have h2 : truthy (some nrt) = true := by
      simp [truthy, beq_eq_false_iff_ne.mpr hn0]
    simp [h2]
  · intro hn
    simp [truthy, hn]
  · intro hn
    simp [truthy, hn]

/-- C7 witness: refreshing `oauthNearExpiry` against `grantSample` in
`worldDue` yields a credential whose identity fields are unchanged, whose
access token is `"a2"`, whose refresh token is the newly issued `"r2"` and
whose expiry is 1000100 + 3600·1000. -/
theorem c7_refresh_frame_witness :
    ∃ o2 : OAuthConfig,
      getAuthOrThrow (some (.oauth oauthNearExpiry)) worldDue =
        { result := .ok (.oauth o2), inMemoryAfter := some (.oauth o2),
          refreshCalls := 1 } ∧
      o2.clientId = oauthNearExpiry.clientId ∧
      o2.clientSecret = oauthNearExpiry.clientSecret ∧
      o2.cloudId = oauthNearExpiry.cloudId ∧
      o2.accessToken = grantSample.access_token ∧
      o2.expiresAt = some (worldDue.nowAfterRefresh + grantSample.expires_in * 1000) ∧
      (∀ nrt, grantSample.refresh_token = some nrt → nrt ≠ "" →
        o2.refreshToken = some nrt) ∧
      (grantSample.refresh_token = none →
        o2.refreshToken = oauthNearExpiry.refreshToken) ∧
      (grantSample.refresh_token = some "" →
        o2.refreshToken = oauthNearExpiry.refreshToken) :=
  c7_refresh_frame oauthNearExpiry worldDue 1000000 "r" grantSample
    rfl (by decide) rfl (by decide) (by decide) rfl

/-- Helper: with an in-memory credential, `getAuthOrThrow` always returns a
credential (never throws), and the returned credential is exactly the
in-memory slot afterwards. -/
theorem getAuthOrThrow_inMemory (a : AuthConfig) (w : World) :
    ∃ a2, (getAuthOrThrow (some a) w).result = .ok a2 ∧
      (getAuthOrThrow (some a) w).inMemoryAfter = some a2 := by
  cases a with
  | basic b => exact ⟨.basic b, rfl, rfl⟩
  | oauth o =>
    by_cases h1 : (truthyNum o.expiresAt && truthy o.refreshToken) = true
    · by_cases h2 : o.expiresAt.getD 0 ≤ w.now + 300000
      · cases hr : w.refreshResult with
        | none =>
          exact ⟨.oauth o, by simp [getAuthOrThrow, h1, h2, hr],
            by simp [getAuthOrThrow, h1, h2, hr]⟩
        | some t =>
          refine ⟨.oauth { o with
              accessToken := t.access_token,
              refreshToken :=
                if truthy t.refresh_token then t.refresh_token
                else o.refreshToken,
              expiresAt := some (w.nowAfterRefresh + t.expires_in * 1000) },
            by simp [getAuthOrThrow, h1, h2, hr], by simp [getAuthOrThrow, h1, h2, hr]⟩
      · exact ⟨.oauth o, by simp [getAuthOrThrow, h1, h2],
          by simp [getAuthOrThrow, h1, h2]⟩
    · exact ⟨.oauth o, by simp [getAuthOrThrow, h1],
        by simp [getAuthOrThrow, h1]⟩

/-- C1 (amended): `resolve()` returns the in-memory credential whenever one
is set; with none set it tries OAuth-env, then Basic-env, then the durable
vault, in that fixed order; it fails with `MISSING_AUTH` exactly when no
source yields a credential and the Basic environment variables, when all
set, do not carry a malformed base URL — in that last case it instead
fails, before consulting durable storage, with the URL-validation error
that `basicAuthFromEnv` lets escape. -/
theorem c1_credential_priority (inMem : Option AuthConfig) (w : World) :
    (∀ a, inMem = some a →
      ∃ a2, (getAuthOrThrow inMem w).result = .ok a2 ∧
        (getAuthOrThrow inMem w).inMemoryAfter = some a2) ∧
    (∀ o, inMem = none → oauthFromEnv w.env = some o →
      getAuthOrThrow inMem w =
        { result := .ok (.oauth o), inMemoryAfter := none, refreshCalls := 0 }) ∧
    (∀ b, inMem = none → oauthFromEnv w.env = none →
      basicAuthFromEnv w.env = .ok (some b) →
      getAuthOrThrow inMem w =
        { result := .ok (.basic b), inMemoryAfter := none, refreshCalls := 0 }) ∧
    (∀ a, inMem = none → oauthFromEnv w.env = none →
      basicAuthFromEnv w.env = .ok none → authFromKeytar w = some a →
      getAuthOrThrow inMem w =
        { result := .ok a, inMemoryAfter := none, refreshCalls := 0 }) ∧
    (inMem = none → oauthFromEnv w.env = none →
      basicAuthFromEnv w.env = .ok none → authFromKeytar w = none →
      getAuthOrThrow inMem w =
        { result := .error "MISSING_AUTH", inMemoryAfter := none, refreshCalls := 0 }) ∧
    (∀ e, inMem = none → oauthFromEnv w.env = none →
      basicAuthFromEnv w.env = .error e →
      getAuthOrThrow inMem w =
        { result := .error e, inMemoryAfter := none, refreshCalls := 0 }) ∧
    ((getAuthOrThrow inMem w).result = .error "MISSING_AUTH" ↔
      inMem = none ∧ oauthFromEnv w.env = none ∧
        basicAuthFromEnv w.env = .ok none ∧ authFromKeytar w = none) := by
  refine ⟨?_, ?_, ?_, ?_, ?_, ?_, ?_⟩
  · intro a ha
    subst ha
    exact getAuthOrThrow_inMemory a w
  · intro o hm ho
    subst hm
    simp [getAuthOrThrow, ho]
  · intro b hm ho hb
    subst hm
    simp [getAuthOrThrow, ho, hb]
  · intro a hm ho hb hk
    subst hm
    simp [getAuthOrThrow, ho, hb, hk]
  · intro hm ho hb hk
    subst hm
    simp [getAuthOrThrow, ho, hb, hk]
  · intro e hm ho hb
    subst hm
    simp [getAuthOrThrow, ho, hb]
  · constructor
    · intro h
      cases hm : inMem with
      | some a =>
        obtain ⟨a2, h1, _⟩ := getAuthOrThrow_inMemory a w
        rw [hm] at h
        rw [h1] at h
        exact nomatch h
      | none =>
        subst hm
        cases ho : oauthFromEnv w.env with
        | some o => simp [getAuthOrThrow, ho] at h
        | none =>
          cases hb : basicAuthFromEnv w.env with
          | error e =>
            simp [getAuthOrThrow, ho, hb] at h
            have := basicAuthFromEnv_error_msg w.env e hb
            rw [this] at h
            exact absurd h.symm (by decide)
          | ok ob =>
            cases ob with
            | some b => simp [getAuthOrThrow, ho, hb] at h
            | none =>
              cases hk : authFromKeytar w with
              | some a => simp [getAuthOrThrow, ho, hb, hk] at h
              | none => exact ⟨rfl, rfl, rfl, rfl⟩
    · rintro ⟨hm, ho, hb, hk⟩
      subst hm
      simp [getAuthOrThrow, ho, hb, hk]

/-- C1 witness: each source wins in its own scenario — OAuth env vars, then
Basic env vars, then the keytar vault; with nothing configured the resolver
fails with `MISSING_AUTH`. -/
theorem c1_credential_priority_witness :
    getAuthOrThrow none worldOauthEnv =
      { result := .ok (.oauth oauthEnvCred), inMemoryAfter := none, refreshCalls := 0 } ∧
    getAuthOrThrow none worldBasicEnv =
      { result := .ok (.basic basicEnvCred), inMemoryAfter := none, refreshCalls := 0 } ∧
    getAuthOrThrow none worldKeytar =
      { result := .ok (.oauth storedOauthCred), inMemoryAfter := none, refreshCalls := 0 } ∧
    getAuthOrThrow none worldEmpty =
      { result := .error "MISSING_AUTH", inMemoryAfter := none, refreshCalls := 0 } :=
  ⟨(c1_credential_priority none worldOauthEnv).2.1 oauthEnvCred rfl rfl,
   (c1_credential_priority none worldBasicEnv).2.2.1 basicEnvCred rfl rfl rfl,
   (c1_credential_priority none worldKeytar).2.2.2.1 (.oauth storedOauthCred)
     rfl rfl rfl rfl,
   (c1_credential_priority none worldEmpty).2.2.2.2.1 rfl rfl rfl rfl⟩

/-- C1 counterexample: with `JIRA_BASE_URL = "not a url"` and the other two
Basic variables set, no OAuth variables and no durable credential, no
source resolves — yet `resolve()` fails with the URL-validation error, not
with `MISSING_AUTH`, so "fails with MissingAuth if and only if none of
these sources resolves" is false as stated. -/
theorem c1_credential_priority_counterexample :
    oauthFromEnv worldBadBasicEnv.env = none ∧
    basicAuthFromEnv worldBadBasicEnv.env =
      .error "baseUrl must be a valid URL like https://your-domain.atlassian.net" ∧
    authFromKeytar worldBadBasicEnv = none ∧
    (getAuthOrThrow none worldBadBasicEnv).result =
      .error "baseUrl must be a valid URL like https://your-domain.atlassian.net" ∧
    (("baseUrl must be a valid URL like https://your-domain.atlassian.net" : String)
      == "MISSING_AUTH") = false :=
  ⟨rfl, rfl, rfl, rfl, by decide⟩

/-- C4 (amended): a handler whose body is wrapped in `try/catch` — the
general pattern, here `jira_delete_issue` — never lets an exception escape,
for every input, credential state and error condition (auth failure,
HTTP error of any status, keytar state); but `_internal_jira_set_auth` has
no `try/catch`, and on a malformed base URL the `normalizeBaseUrl`
exception propagates out of the handler. -/
theorem c4_handler_error_containment (inMem inMem2 : Option AuthConfig)
    (key : String) (ds : Option Bool) (cd : Bool) (w w2 : World) :
    (jira_delete_issue_handler inMem key ds cd w).disposition.isThrown = false ∧
    (internal_jira_set_auth inMem2 "not a url" "a@acme.com" "T" false w2).disposition =
      .thrown "baseUrl must be a valid URL like https://your-domain.atlassian.net" := by
  constructor
  · cases cd with
    | false => rfl
    | true =>
      unfold jira_delete_issue_handler
      cases hr : (getAuthOrThrow inMem w).result with
      | error e => simp [hr, Disposition.isThrown]
      | ok a =>
        cases hd : w.deleteResult with
        | some err => simp [hr, hd, Disposition.isThrown]
        | none => simp [hr, hd, Disposition.isThrown]
  · rfl

/-- C4 counterexample: invoking `_internal_jira_set_auth` with the
non-URL base `"not a url"` makes the `normalizeBaseUrl` exception escape
the handler instead of being converted to a structured error payload. -/
theorem c4_handler_error_containment_counterexample :
    (internal_jira_set_auth none "not a url" "a@acme.com" "T" false worldEmpty).disposition =
      .thrown "baseUrl must be a valid URL like https://your-domain.atlassian.net" ∧
    (internal_jira_set_auth none "not a url" "a@acme.com" "T" false worldEmpty).disposition.isThrown
      = true :=
  ⟨rfl, rfl⟩

/-- C5 (amended): "set auth" with persistence requested while the keytar
vault is unavailable does set the in-memory credential first and persists
nothing — but instead of reporting a structured `PersistenceUnavailable`
error kind (no such kind exists in the code), the `setAuth` throw
`"Keytar is not available to persist credentials."` escapes the uncaught
handler. -/
theorem c5_persist_unavailable (inMem : Option AuthConfig)
    (email apiToken : String) (w : World) (hk : w.keytarAvailable = false) :
    internal_jira_set_auth inMem "https://acme.atlassian.net" email apiToken true w =
      { disposition := .thrown "Keytar is not available to persist credentials.",
        inMemoryAfter := some (.basic
          { baseUrl := "https://acme.atlassian.net", email := email,
            apiToken := apiToken }),
        persisted := none } := by
  unfold internal_jira_set_auth
  rw [show normalizeBaseUrl "https://acme.atlassian.net" =
    .ok "https://acme.atlassian.net" from rfl]
  simp [setAuth, hk]

/-- C5 witness: the concrete run in `worldEmpty` (keytar unavailable). -/
theorem c5_persist_unavailable_witness :
    worldEmpty.keytarAvailable = false ∧
    internal_jira_set_auth none "https://acme.atlassian.net" "a@acme.com" "T" true worldEmpty =
      { disposition := .thrown "Keytar is not available to persist credentials.",
        inMemoryAfter := some (.basic
          { baseUrl := "https://acme.atlassian.net", email := "a@acme.com",
            apiToken := "T" }),
        persisted := none } :=
  ⟨rfl, c5_persist_unavailable none "a@acme.com" "T" worldEmpty rfl⟩

/-- C5 counterexample: the operation does not report any structured
payload — the keytar error escapes as a thrown exception (and even if it
were caught, `errorToResult` would map it to kind `"unknown"`, not
`PersistenceUnavailable`); the in-memory credential is nevertheless set. -/
theorem c5_persist_unavailable_counterexample :
    internal_jira_set_auth none "https://acme.atlassian.net" "a@acme.com" "T" true worldEmpty =
      { disposition := .thrown "Keytar is not available to persist credentials.",
        inMemoryAfter := some (.basic
          { baseUrl := "https://acme.atlassian.net", email := "a@acme.com",
            apiToken := "T" }),
        persisted := none } ∧
    (errorToResult (.jsError "Keytar is not available to persist credentials.")).error
      = "unknown" :=
  ⟨rfl, rfl⟩

/-- C6 (amended): when no credential source resolves, the failure surfaced
to the caller carries the kind string `"unauthorized"` with the
authenticate-guidance message — the same kind string `errorToResult`
assigns to an HTTP 401 on a present-but-rejected credential; the two cases
are distinguished only by their messages, not by distinct kinds. -/
theorem c6_missing_auth_kind (inMem : Option AuthConfig) (key : String)
    (ds : Option Bool) (w : World) (d : String)
    (hm : inMem = none) (ho : oauthFromEnv w.env = none)
    (hb : basicAuthFromEnv w.env = .ok none) (hk : authFromKeytar w = none) :
    (jira_delete_issue_tool inMem key ds (some true) w).disposition =
      .payload
        { error := "unauthorized",
          message := "Jira credentials are missing. Provide credentials explicitly to authenticate." } ∧
    (errorToResult (.httpError (some 401) d)).error = "unauthorized" ∧
    ((errorToResult (.jsError "MISSING_AUTH")).message ==
      (errorToResult (.httpError (some 401) d)).message) = false := by
  subst hm
  refine ⟨?_, rfl, rfl⟩
  have hres := (c1_credential_priority none w).2.2.2.2.1 rfl ho hb hk
  show (jira_delete_issue_handler none key ds true w).disposition = _
  unfold jira_delete_issue_handler
  rw [hres]
  rfl

/-- C6 witness: the concrete empty-world run. -/
theorem c6_missing_auth_kind_witness :
    (jira_delete_issue_tool none "PROJ-1" none (some true) worldEmpty).disposition =
      .payload
        { error := "unauthorized",
          message := "Jira credentials are missing. Provide credentials explicitly to authenticate." } ∧
    (errorToResult (.httpError (some 401) "detail")).error = "unauthorized" ∧
    ((errorToResult (.jsError "MISSING_AUTH")).message ==
      (errorToResult (.httpError (some 401) "detail")).message) = false :=
  c6_missing_auth_kind none "PROJ-1" none worldEmpty "detail" rfl rfl rfl rfl

/-- C6 counterexample: the code does not give the no-credential failure a
kind distinct from `Unauthorized` — `errorToResult` maps the
`MISSING_AUTH` error and an HTTP 401 to the same kind string
`"unauthorized"`. -/
theorem c6_missing_auth_kind_counterexample :
    (errorToResult (.jsError "MISSING_AUTH")).error = "unauthorized" ∧
    (errorToResult (.httpError (some 401) "x")).error = "unauthorized" ∧
    ((errorToResult (.jsError "MISSING_AUTH")).error ==
      (errorToResult (.httpError (some 401) "x")).error) = true ∧
    (jira_delete_issue_tool none "PROJ-1" none (some true) worldEmpty).disposition =
      .payload
        { error := "unauthorized",
          message := "Jira credentials are missing. Provide credentials explicitly to authenticate." } :=
  ⟨rfl, rfl, by decide, rfl⟩
